import Mathlib

/-!
Verification of the Glicko-2 MMR module (arena and battleground rating
storage, matchmaking-pool admission, and match settlement).

The development shallowly embeds the C++ sources:
* `src/ArenaRatingStorage.h` / `.cpp` — bracket constants and the arena
  rating cache;
* `src/ArenaMMR.h` / `.cpp` — the arena rating manager (settlement,
  averaging, relaxed matchmaking range, per-bracket settings);
* `src/Glicko2PlayerStorage.h` / `.cpp` — the battleground rating cache;
* `src/Glicko2BGScript.cpp` — pool tracking, the admission check, team
  aggregation and team rating updates.

Ratings are embedded as rationals (the C++ uses `float`; none of the
verified properties depend on rounding), counters as naturals, and the
in-memory caches as functions from keys to optional records, mirroring
the `std::unordered_map` state.  The Glicko-2 engine itself
(`Glicko2.h`) is not part of the repository slice, so settlement is
parameterised over an arbitrary engine `upd`, and the engine's
empty-opponent path is modelled from the spec where a claim needs it.
-/

namespace Glicko2MMR

/-! ## Bracket constants (src/ArenaRatingStorage.h, lines 29-36)

`ArenaBracket` is a `uint8`-backed enum; the embedding works with the
underlying numeral values, which is what every map key, array index and
loop bound in the source uses. -/

/-- Underlying value of `ArenaBracket::SLOT_2v2` (source line 31). -/
def SLOT_2v2 : Nat := 33

/-- Underlying value of `ArenaBracket::SLOT_3v3` (source line 32). -/
def SLOT_3v3 : Nat := 1

/-- Underlying value of `ArenaBracket::SLOT_5v5` (source line 33). -/
def SLOT_5v5 : Nat := 2

/-- Underlying value of `ArenaBracket::MAX_SLOTS` (source line 35); also
the length of `ArenaMMRMgr::_bracketSettings`. -/
def MAX_SLOTS : Nat := 3

/-! ## Rating records -/

/-- Embeds `ArenaRatingData` (src/ArenaRatingStorage.h, lines 39-55). -/
structure ArenaRatingData where
  rating : ℚ
  ratingDeviation : ℚ
  volatility : ℚ
  matchesPlayed : Nat
  wins : Nat
  losses : Nat
  bracket : Nat
  loaded : Bool
deriving DecidableEq

/-- Embeds `BattlegroundRatingData` (src/Glicko2PlayerStorage.h, lines 29-44). -/
structure BattlegroundRatingData where
  rating : ℚ
  ratingDeviation : ℚ
  volatility : ℚ
  matchesPlayed : Nat
  wins : Nat
  losses : Nat
  loaded : Bool
deriving DecidableEq

/-- Per-bracket matchmaking settings, embedding
`ArenaMMRMgr::BracketSettings` (src/ArenaMMR.h, lines 90-95). -/
structure BracketSettings where
  initialRange : ℚ
  maxRange : ℚ
  relaxationRate : ℚ
deriving DecidableEq

/-- The resolved arena configuration: the `Glicko2.Arena.*` options read
by `ArenaMMRMgr::LoadConfig` and by `ArenaRatingStorage::GetRating`.
`bracketSettings` is the fixed-size array `_bracketSettings` of length
`MAX_SLOTS` (src/ArenaMMR.h, line 97). -/
structure ArenaConfig where
  enabled : Bool
  initialRating : ℚ
  initialRD : ℚ
  initialVolatility : ℚ
  systemTau : ℚ
  bracketSettings : Fin MAX_SLOTS → BracketSettings

/-- The resolved battleground configuration: the global `Glicko2.*`
options read by `Glicko2PlayerStorage::GetRating` and the battleground
branch of `Glicko2BGScript`. -/
structure BGConfig where
  initialRating : ℚ
  initialRD : ℚ
  initialVolatility : ℚ
  tau : ℚ

/-! ## Arena rating storage (src/ArenaRatingStorage.cpp)

The cache `_ratings` is an `unordered_map` keyed by `{guid, bracket}`;
it is embedded as a function from (guid, underlying bracket value) to an
optional record. -/

/-- The in-memory arena rating cache. -/
def ArenaStore : Type := Nat × Nat → Option ArenaRatingData

/-- An empty arena cache. -/
def emptyArenaStore : ArenaStore := fun _ => none

namespace ArenaRatingStorage

/-- Embeds `ArenaRatingStorage::GetRating` (src/ArenaRatingStorage.cpp,
lines 30-48): under a shared lock, return the cached record when the key
is present, otherwise a default record built from the configured initial
rating, RD and volatility, with zero counters and `loaded = false` (the
`ArenaRatingData` default initializers, src/ArenaRatingStorage.h lines
41-50). -/
def GetRating (cfg : ArenaConfig) (store : ArenaStore) (guid bracket : Nat) :
    ArenaRatingData :=
  match store (guid, bracket) with
  | some d => d
  | none =>
      { rating := cfg.initialRating
        ratingDeviation := cfg.initialRD
        volatility := cfg.initialVolatility
        matchesPlayed := 0
        wins := 0
        losses := 0
        bracket := bracket
        loaded := false }

/-- `GetRating` together with the cache as it stands after the call: the
source body only reads the map under a `std::shared_lock` and performs
no insertion, so the cache is returned unchanged. -/
def GetRatingS (cfg : ArenaConfig) (store : ArenaStore) (guid bracket : Nat) :
    ArenaRatingData × ArenaStore :=
  (GetRating cfg store guid bracket, store)

/-- Embeds `ArenaRatingStorage::SetRating` (src/ArenaRatingStorage.cpp,
lines 50-56). -/
def SetRating (store : ArenaStore) (guid bracket : Nat)
    (data : ArenaRatingData) : ArenaStore :=
  fun k => if k = (guid, bracket) then some data else store k

/-- Embeds `ArenaRatingStorage::HasRating` (src/ArenaRatingStorage.cpp,
lines 58-64). -/
def HasRating (store : ArenaStore) (guid bracket : Nat) : Bool :=
  (store (guid, bracket)).isSome

/-- Embeds `ArenaRatingStorage::RemoveRating` (src/ArenaRatingStorage.cpp,
lines 66-72). -/
def RemoveRating (store : ArenaStore) (guid bracket : Nat) : ArenaStore :=
  fun k => if k = (guid, bracket) then none else store k

/-- Embeds `ArenaRatingStorage::RemoveAllRatings`
(src/ArenaRatingStorage.cpp, lines 74-83): erase the keys
`{guid, static_cast<ArenaBracket>(i)}` for `i = 0 .. MAX_SLOTS - 1`. -/
def RemoveAllRatings (store : ArenaStore) (guid : Nat) : ArenaStore :=
  (List.range MAX_SLOTS).foldl (fun s i => RemoveRating s guid i) store

end ArenaRatingStorage

/-! ## Battleground rating storage (src/Glicko2PlayerStorage.cpp) -/

/-- The in-memory battleground rating cache, keyed by guid. -/
def BGStore : Type := Nat → Option BattlegroundRatingData

/-- An empty battleground cache. -/
def emptyBGStore : BGStore := fun _ => none

namespace Glicko2PlayerStorage

/-- Embeds `Glicko2PlayerStorage::GetRating`
(src/Glicko2PlayerStorage.cpp, lines 30-43): under a shared lock, return
the cached record when present, otherwise a default record built from
the configured initial values with zero counters and `loaded = false`.
No insertion is performed. -/
def GetRating (cfg : BGConfig) (store : BGStore) (guid : Nat) :
    BattlegroundRatingData :=
  match store guid with
  | some d => d
  | none =>
      { rating := cfg.initialRating
        ratingDeviation := cfg.initialRD
        volatility := cfg.initialVolatility
        matchesPlayed := 0
        wins := 0
        losses := 0
        loaded := false }

/-- `GetRating` together with the cache after the call, which the source
leaves untouched (read under `std::shared_lock`, no insertion). -/
def GetRatingS (cfg : BGConfig) (store : BGStore) (guid : Nat) :
    BattlegroundRatingData × BGStore :=
  (GetRating cfg store guid, store)

/-- Embeds `Glicko2PlayerStorage::SetRating`
(src/Glicko2PlayerStorage.cpp, lines 45-49). -/
def SetRating (store : BGStore) (guid : Nat)
    (data : BattlegroundRatingData) : BGStore :=
  fun k => if k = guid then some data else store k

/-- Embeds `Glicko2PlayerStorage::HasRating`
(src/Glicko2PlayerStorage.cpp, lines 51-55). -/
def HasRating (store : BGStore) (guid : Nat) : Bool :=
  (store guid).isSome

end Glicko2PlayerStorage

/-! ## Glicko-2 rating and opponent values

`Glicko2Rating` and `Glicko2Opponent` are the value types of the engine
interface declared in `Glicko2.h` (included by src/ArenaMMR.h and
src/BattlegroundMMR.h; the engine implementation is not part of the
repository slice).  They are embedded polymorphically so the settlement
code can use them over `ℚ` while the spec-modelled engine path uses `ℝ`. -/

/-- A Glicko-2 rating triple (rating, rating deviation, volatility). -/
structure Glicko2Rating (α : Type) where
  rating : α
  ratingDeviation : α
  volatility : α
deriving DecidableEq

/-- A Glicko-2 opponent observation (rating, rating deviation, score). -/
structure Glicko2Opponent (α : Type) where
  rating : α
  ratingDeviation : α
  score : α
deriving DecidableEq

/-- The type of the engine's update function
`Glicko2System::UpdateRating`, over which the settlement embedding is
parameterised (the engine source is not under src/). -/
def Glicko2Engine : Type := Glicko2Rating ℚ → List (Glicko2Opponent ℚ) → Glicko2Rating ℚ

/-! ## Arena MMR manager (src/ArenaMMR.cpp) -/

namespace ArenaMMRMgr

open ArenaRatingStorage

/-- The linear relaxation formula of
`ArenaMMRMgr::GetRelaxedMMRRange` (src/ArenaMMR.cpp, lines 149-153):
`min(initialRange + relaxationRate * queueTimeSeconds, maxRange)`.  The
same expression is computed inline by the admission check
(src/Glicko2BGScript.cpp, lines 331-332 and 376-377). -/
def relaxedTolerance (s : BracketSettings) (queueTimeSeconds : Nat) : ℚ :=
  min (s.initialRange + s.relaxationRate * queueTimeSeconds) s.maxRange

/-- Embeds `ArenaMMRMgr::GetRelaxedMMRRange` (src/ArenaMMR.cpp, lines
145-154).  The source indexes
`_bracketSettings[static_cast<uint8>(bracket)]`, an array of length
`MAX_SLOTS`; the embedding makes the bounds check explicit and returns
`none` when the index is outside the array. -/
def GetRelaxedMMRRange (cfg : ArenaConfig) (queueTimeSeconds : Nat)
    (bracket : Nat) : Option ℚ :=
  if h : bracket < MAX_SLOTS then
    some (relaxedTolerance (cfg.bracketSettings ⟨bracket, h⟩) queueTimeSeconds)
  else
    none

/-- Embeds `ArenaMMRMgr::GetInitialRange` (src/ArenaMMR.cpp, lines
156-159), with the array bounds check explicit. -/
def GetInitialRange (cfg : ArenaConfig) (bracket : Nat) : Option ℚ :=
  if h : bracket < MAX_SLOTS then
    some (cfg.bracketSettings ⟨bracket, h⟩).initialRange
  else
    none

/-- Embeds `ArenaMMRMgr::GetMaxRange` (src/ArenaMMR.cpp, lines 161-164),
with the array bounds check explicit. -/
def GetMaxRange (cfg : ArenaConfig) (bracket : Nat) : Option ℚ :=
  if h : bracket < MAX_SLOTS then
    some (cfg.bracketSettings ⟨bracket, h⟩).maxRange
  else
    none

/-- Embeds `ArenaMMRMgr::GetRelaxationRate` (src/ArenaMMR.cpp, lines
166-169), with the array bounds check explicit. -/
def GetRelaxationRate (cfg : ArenaConfig) (bracket : Nat) : Option ℚ :=
  if h : bracket < MAX_SLOTS then
    some (cfg.bracketSettings ⟨bracket, h⟩).relaxationRate
  else
    none

/-- Embeds `ArenaMMRMgr::InitializePlayerRating` (src/ArenaMMR.cpp,
lines 31-52): when enabled and no rating exists for the bracket, store a
fresh record with the configured initial values, zero counters and
`loaded = true`. -/
def InitializePlayerRating (cfg : ArenaConfig) (store : ArenaStore)
    (guid bracket : Nat) : ArenaStore :=
  if !cfg.enabled then store
  else if HasRating store guid bracket then store
  else
    SetRating store guid bracket
      { rating := cfg.initialRating
        ratingDeviation := cfg.initialRD
        volatility := cfg.initialVolatility
        matchesPlayed := 0
        wins := 0
        losses := 0
        bracket := bracket
        loaded := true }

/-- Embeds `ArenaMMRMgr::CalculateAverageRating` (src/ArenaMMR.cpp,
lines 130-143): the configured initial rating for an empty list,
otherwise the arithmetic mean of the resolved ratings. -/
def CalculateAverageRating (cfg : ArenaConfig) (store : ArenaStore)
    (playerGuids : List Nat) (bracket : Nat) : ℚ :=
  if playerGuids.isEmpty then cfg.initialRating
  else
    (playerGuids.map (fun g => (GetRating cfg store g bracket).rating)).sum
      / playerGuids.length

/-- The average opponent rating-deviation loop of
`ArenaMMRMgr::UpdatePlayerRating` (src/ArenaMMR.cpp, lines 65-73): sum
of the resolved RDs divided by the list length (the caller guarantees a
non-empty list). -/
def AverageOpponentRD (cfg : ArenaConfig) (store : ArenaStore)
    (opponents : List Nat) (bracket : Nat) : ℚ :=
  (opponents.map (fun g => (GetRating cfg store g bracket).ratingDeviation)).sum
    / opponents.length

/-- The write-back step of `ArenaMMRMgr::UpdatePlayerRating`
(src/ArenaMMR.cpp, lines 75-94), given the already-computed synthetic
opponent aggregate: run the engine on the player's rating against the
single opponent `(oppAvgRating, oppAvgRD, won ? 1.0 : 0.0)`, increment
`matchesPlayed` and the matching win/loss counter, and store the result. -/
def ApplyMatchResult (upd : Glicko2Engine) (cfg : ArenaConfig)
    (store : ArenaStore) (guid bracket : Nat) (won : Bool)
    (oppAvgRating oppAvgRD : ℚ) : ArenaStore :=
  let playerData := GetRating cfg store guid bracket
  let newRating :=
    upd ⟨playerData.rating, playerData.ratingDeviation, playerData.volatility⟩
      [⟨oppAvgRating, oppAvgRD, if won then 1 else 0⟩]
  SetRating store guid bracket
    { playerData with
        rating := newRating.rating
        ratingDeviation := newRating.ratingDeviation
        volatility := newRating.volatility
        matchesPlayed := playerData.matchesPlayed + 1
        wins := playerData.wins + (if won then 1 else 0)
        losses := playerData.losses + (if won then 0 else 1) }

/-- Embeds `ArenaMMRMgr::UpdatePlayerRating` (src/ArenaMMR.cpp, lines
54-95): no-op when disabled or the opponent list is empty; otherwise
aggregate the opponents from the current store and apply the result. -/
def UpdatePlayerRating (upd : Glicko2Engine) (cfg : ArenaConfig)
    (store : ArenaStore) (guid bracket : Nat) (won : Bool)
    (opponents : List Nat) : ArenaStore :=
  if !cfg.enabled || opponents.isEmpty then store
  else
    ApplyMatchResult upd cfg store guid bracket won
      (CalculateAverageRating cfg store opponents bracket)
      (AverageOpponentRD cfg store opponents bracket)

/-- Embeds `ArenaMMRMgr::UpdateArenaMatch` (src/ArenaMMR.cpp, lines
97-116): no-op when disabled or either side is empty; otherwise update
every winner against the losers, then every loser against the winners,
each call reading the store as it stands at that point. -/
def UpdateArenaMatch (upd : Glicko2Engine) (cfg : ArenaConfig)
    (store : ArenaStore) (winners losers : List Nat) (bracket : Nat) :
    ArenaStore :=
  if !cfg.enabled || winners.isEmpty || losers.isEmpty then store
  else
    let s1 := winners.foldl
      (fun s w => UpdatePlayerRating upd cfg s w bracket true losers) store
    losers.foldl
      (fun s l => UpdatePlayerRating upd cfg s l bracket false winners) s1

end ArenaMMRMgr

/-! ## Battleground script (src/Glicko2BGScript.cpp) -/

/-- Embeds `PoolTracker` (src/Glicko2BGScript.cpp, lines 44-66): the set
of pooled players (kept as a duplicate-free list) and the last update
time. -/
structure PoolTracker where
  players : List Nat
  lastUpdateTime : Int
deriving DecidableEq

namespace PoolTracker

/-- Set insertion for the `unordered_set<ObjectGuid>` member set. -/
def insertPlayer (players : List Nat) (g : Nat) : List Nat :=
  if players.contains g then players else players ++ [g]

/-- Embeds `PoolTracker::AddGroup` (src/Glicko2BGScript.cpp, lines
49-54): insert every candidate member and refresh `lastUpdateTime` to
the current time. -/
def AddGroup (p : PoolTracker) (groupPlayers : List Nat) (now : Int) :
    PoolTracker :=
  { players := groupPlayers.foldl insertPlayer p.players
    lastUpdateTime := now }

/-- Embeds `PoolTracker::Clear` (src/Glicko2BGScript.cpp, lines 56-60);
also the value default-constructed by `_poolTracking[key]`. -/
def cleared : PoolTracker := ⟨[], 0⟩

/-- Embeds `PoolTracker::IsStale` (src/Glicko2BGScript.cpp, lines 62-65)
at the default staleness window of 300 seconds. -/
def IsStale (p : PoolTracker) (now : Int) : Bool :=
  now - p.lastUpdateTime > 300

end PoolTracker

/-- The `_poolTracking` map (src/Glicko2BGScript.cpp, line 98), keyed by
`PoolKey` = (queue identity, bracket id), both embedded as naturals. -/
def PoolState : Type := Nat × Nat → Option PoolTracker

/-- An empty pool-tracking map. -/
def emptyPoolState : PoolState := fun _ => none

namespace Glicko2BGScript

/-- Embeds `Glicko2BGScript::CalculateAverageMMR`
(src/Glicko2BGScript.cpp, lines 420-433): the literal constant `1500.0f`
for an empty set, otherwise the arithmetic mean of the resolved
battleground ratings. -/
def CalculateAverageMMR (cfg : BGConfig) (store : BGStore)
    (players : List Nat) : ℚ :=
  if players.isEmpty then 1500
  else
    (players.map (fun g => (Glicko2PlayerStorage.GetRating cfg store g).rating)).sum
      / players.length

/-- Embeds `Glicko2BGScript::CalculatePoolAverageMMR`
(src/Glicko2BGScript.cpp, lines 435-438), which delegates to
`CalculateAverageMMR`. -/
def CalculatePoolAverageMMR (cfg : BGConfig) (store : BGStore)
    (players : List Nat) : ℚ :=
  CalculateAverageMMR cfg store players

/-- Embeds `Glicko2BGScript::CalculateGroupAverageMMR`
(src/Glicko2BGScript.cpp, lines 457-470): the configured
`Glicko2.InitialRating` for an empty group, otherwise the mean of the
resolved battleground ratings. -/
def CalculateGroupAverageMMR (cfg : BGConfig) (store : BGStore)
    (players : List Nat) : ℚ :=
  if players.isEmpty then cfg.initialRating
  else
    (players.map (fun g => (Glicko2PlayerStorage.GetRating cfg store g).rating)).sum
      / players.length

/-- Embeds `Glicko2BGScript::CalculateAverageRD`
(src/Glicko2BGScript.cpp, lines 472-485): the literal constant `200.0f`
for an empty set, otherwise the mean of the resolved rating deviations. -/
def CalculateAverageRD (cfg : BGConfig) (store : BGStore)
    (players : List Nat) : ℚ :=
  if players.isEmpty then 200
  else
    (players.map
      (fun g => (Glicko2PlayerStorage.GetRating cfg store g).ratingDeviation)).sum
      / players.length

/-- Embeds `Glicko2BGScript::CalculateGroupArenaRating`
(src/Glicko2BGScript.cpp, lines 531-544): the configured arena initial
rating for an empty group, otherwise the mean of the resolved arena
ratings for the bracket. -/
def CalculateGroupArenaRating (cfg : ArenaConfig) (store : ArenaStore)
    (players : List Nat) (bracket : Nat) : ℚ :=
  if players.isEmpty then cfg.initialRating
  else
    (players.map
      (fun g => (ArenaRatingStorage.GetRating cfg store g bracket).rating)).sum
      / players.length

/-- Embeds `Glicko2BGScript::CalculatePoolArenaRating`
(src/Glicko2BGScript.cpp, lines 547-560): the configured arena initial
rating for an empty pool, otherwise the mean of the resolved arena
ratings for the bracket. -/
def CalculatePoolArenaRating (cfg : ArenaConfig) (store : ArenaStore)
    (players : List Nat) (bracket : Nat) : ℚ :=
  if players.isEmpty then cfg.initialRating
  else
    (players.map
      (fun g => (ArenaRatingStorage.GetRating cfg store g bracket).rating)).sum
      / players.length

/-- Embeds `Glicko2BGScript::CleanupStalePools`
(src/Glicko2BGScript.cpp, lines 440-455): erase every tracked pool whose
last update is older than the staleness window. -/
def CleanupStalePools (pools : PoolState) (now : Int) : PoolState :=
  fun k =>
    match pools k with
    | some p => if p.IsStale now then none else some p
    | none => none

/-- Embeds the admission logic of
`Glicko2BGScript::CanAddGroupToMatchingPool` (src/Glicko2BGScript.cpp,
lines 272-392).  The arena branch (lines 289-347) and the battleground
branch (lines 349-391) run the same algorithm and differ only in where
the settings triplet and the two averages come from, so the embedding
takes the group-average and pool-average computations (`calcGroupAvg`,
`calcPoolAvg`, closed over the relevant rating store and configuration)
and the resolved `{initialRange, maxRange, relaxationRate}` triplet as
parameters; the config-disabled early returns (lines 275-276 and
292-293) are outside the algorithm and are not modelled.  An empty
candidate group returns `true` before any state is touched (lines
278-279).  Otherwise: purge stale pools, read (default-constructing if
absent, as `_poolTracking[key]` does) the tracked pool for the key; when
the externally reported pool player count is zero, clear the pool and
seed it with the candidate (lines 305-313 / 351-358); otherwise admit
exactly when the absolute average-rating difference is within the
time-relaxed tolerance, merging the candidate into the pool on admission
(lines 315-346 / 360-391).  Returns the decision and the pool-tracking
map after the call. -/
def CanAddGroupToMatchingPool (calcGroupAvg calcPoolAvg : List Nat → ℚ)
    (settings : BracketSettings) (pools : PoolState) (key : Nat × Nat)
    (groupPlayers : List Nat) (poolPlayerCount : Nat)
    (queueTimeSec : Nat) (now : Int) : Bool × PoolState :=
  if groupPlayers.isEmpty then (true, pools)
  else
    let pools1 := CleanupStalePools pools now
    let pool := (pools1 key).getD PoolTracker.cleared
    if poolPlayerCount = 0 then
      (true, fun k =>
        if k = key then some (PoolTracker.cleared.AddGroup groupPlayers now)
        else pools1 k)
    else
      let groupAvgMMR := calcGroupAvg groupPlayers
      let poolAvgMMR := calcPoolAvg pool.players
      let currentRange := ArenaMMRMgr.relaxedTolerance settings queueTimeSec
      let mmrDiff := |groupAvgMMR - poolAvgMMR|
      let allowed := decide (mmrDiff ≤ currentRange)
      let pool1 := if allowed then pool.AddGroup groupPlayers now else pool
      (allowed, fun k => if k = key then some pool1 else pools1 k)

/-- Embeds `Glicko2BGScript::UpdateTeamRatings`
(src/Glicko2BGScript.cpp, lines 487-513): update every team member
against the single synthetic opponent built from the opposing team's
averages, incrementing `matchesPlayed` and the matching win/loss
counter, and write the result back. -/
def UpdateTeamRatings (upd : Glicko2Engine) (cfg : BGConfig)
    (store : BGStore) (players : List Nat)
    (opponentAvgMMR opponentAvgRD : ℚ) (won : Bool) : BGStore :=
  players.foldl
    (fun s g =>
      let data := Glicko2PlayerStorage.GetRating cfg s g
      let newRating :=
        upd ⟨data.rating, data.ratingDeviation, data.volatility⟩
          [⟨opponentAvgMMR, opponentAvgRD, if won then 1 else 0⟩]
      Glicko2PlayerStorage.SetRating s g
        { data with
            rating := newRating.rating
            ratingDeviation := newRating.ratingDeviation
            volatility := newRating.volatility
            matchesPlayed := data.matchesPlayed + 1
            wins := data.wins + (if won then 1 else 0)
            losses := data.losses + (if won then 0 else 1) })
    store

end Glicko2BGScript

/-! ## LoadConfig at the documented defaults (src/ArenaMMR.cpp, lines 171-206) -/

/-- The in-class initializers of `ArenaMMRMgr::BracketSettings`
(src/ArenaMMR.h, lines 90-95): `{200.0f, 1000.0f, 10.0f}`. -/
def BracketSettings.fieldDefaults : BracketSettings := ⟨200, 1000, 10⟩

/-- An assignment `_bracketSettings[idx] = s` with the array bounds made
explicit: a write whose index is outside the `MAX_SLOTS`-element array
does not land in it. -/
def writeBracketSettings (a : Fin MAX_SLOTS → BracketSettings) (idx : Nat)
    (s : BracketSettings) : Fin MAX_SLOTS → BracketSettings :=
  if h : idx < MAX_SLOTS then
    fun j => if j = ⟨idx, h⟩ then s else a j
  else a

/-- Embeds `ArenaMMRMgr::LoadConfig` (src/ArenaMMR.cpp, lines 171-206)
evaluated at the documented option defaults: global settings
`(enabled=false, 1500, 350, 0.06, tau=0.5)` and per-bracket triplets
`2v2 = {150, 800, 15}`, `3v3 = {200, 1000, 12}`, `5v5 = {250, 1200, 10}`
assigned to `_bracketSettings[static_cast<uint8>(SLOT_xvx)]`. -/
def LoadConfigDefaults : ArenaConfig :=
  { enabled := false
    initialRating := 1500
    initialRD := 350
    initialVolatility := 0.06
    systemTau := 0.5
    bracketSettings :=
      writeBracketSettings
        (writeBracketSettings
          (writeBracketSettings (fun _ => BracketSettings.fieldDefaults)
            SLOT_2v2 ⟨150, 800, 15⟩)
          SLOT_3v3 ⟨200, 1000, 12⟩)
        SLOT_5v5 ⟨250, 1200, 10⟩ }

/-! ## The settlement as the specification words it -/

namespace ArenaMMRMgr

/-- The settlement as claim C3 states it: the winners' aggregate and the
losers' aggregate are both computed from the store as it stands before
any update of the settlement, and only then is every participant updated
against the opposing aggregate.  This definition follows the claim's
words; it is compared against `UpdateArenaMatch`, which embeds the
source. -/
def UpdateArenaMatchClaimed (upd : Glicko2Engine) (cfg : ArenaConfig)
    (store : ArenaStore) (winners losers : List Nat) (bracket : Nat) :
    ArenaStore :=
  if !cfg.enabled || winners.isEmpty || losers.isEmpty then store
  else
    let winnersAvg := CalculateAverageRating cfg store winners bracket
    let winnersAvgRD := AverageOpponentRD cfg store winners bracket
    let losersAvg := CalculateAverageRating cfg store losers bracket
    let losersAvgRD := AverageOpponentRD cfg store losers bracket
    let s1 := winners.foldl
      (fun s w => ApplyMatchResult upd cfg s w bracket true losersAvg losersAvgRD)
      store
    losers.foldl
      (fun s l => ApplyMatchResult upd cfg s l bracket false winnersAvg winnersAvgRD)
      s1

/-- The settlement as the code actually stages it (the amended claim):
the winners are updated against the losers' aggregate taken from the
pre-settlement store, and the losers are then updated against the
winners' aggregate taken from the store after all winners' updates have
been written back. -/
def UpdateArenaMatchStaged (upd : Glicko2Engine) (cfg : ArenaConfig)
    (store : ArenaStore) (winners losers : List Nat) (bracket : Nat) :
    ArenaStore :=
  if !cfg.enabled || winners.isEmpty || losers.isEmpty then store
  else
    let losersAvg := CalculateAverageRating cfg store losers bracket
    let losersAvgRD := AverageOpponentRD cfg store losers bracket
    let s1 := winners.foldl
      (fun s w => ApplyMatchResult upd cfg s w bracket true losersAvg losersAvgRD)
      store
    let winnersAvg := CalculateAverageRating cfg s1 winners bracket
    let winnersAvgRD := AverageOpponentRD cfg s1 winners bracket
    losers.foldl
      (fun s l => ApplyMatchResult upd cfg s l bracket false winnersAvg winnersAvgRD)
      s1

end ArenaMMRMgr

/-! ## Spec-modelled engine fragments

`Glicko2.h` (the `Glicko2System` implementation) is not part of the
repository slice; only its callers and its unit tests are.  The two
fragments a claim depends on are modelled from the spec. -/

/-- Modelled from the spec: the empty-opponent-list path of the missing
engine `Glicko2System::UpdateRating` (`Glicko2.h`).  Spec section 4.1:
"If the opponent list is empty: rating and volatility are unchanged; RD
increases monotonically ... the engine here simply applies the standard
Glicko-2 inactivity inflation formula: new RD = sqrt(RD² + volatility²)". -/
noncomputable def UpdateRatingNoOpponents (r : Glicko2Rating ℝ) :
    Glicko2Rating ℝ :=
  ⟨r.rating, Real.sqrt (r.ratingDeviation ^ 2 + r.volatility ^ 2), r.volatility⟩

/-- Modelled from the spec: a concrete stand-in for the missing engine
(`Glicko2.h`), used only to instantiate the engine parameter of a
counterexample.  The counterexample needs just one engine behaviour that
the spec guarantees for the real engine: an update with a decisive
result changes the subject's rating, with the change depending on the
opponent's rating (spec sections 4.1 and 8). -/
def engineStandIn : Glicko2Engine :=
  fun r opps =>
    ⟨r.rating + (opps.map (fun o => o.rating)).sum, r.ratingDeviation,
      r.volatility⟩

/-! ## Example values used by concrete evaluations -/

/-- A stored arena record (the values of the repository's own
`RemoveAllRatingsForPlayer` test fixture). -/
def exampleArenaData : ArenaRatingData :=
  ⟨1600, 200, 0.06, 5, 3, 2, SLOT_2v2, true⟩

/-- A battleground configuration whose initial rating is moved off the
1500 default. -/
def bgConfigAt2000 : BGConfig := ⟨2000, 350, 0.06, 0.5⟩

/-! ## Claim theorems -/

/-- C1.  The claim says every bracket's `{initialRange, maxRange,
relaxationRate}` lookup accesses a valid configured entry and never
hard-fails, and that under the default 2v2 triplet the relaxed range is
150 / 600 / 800 at 0 / 30 / 100 seconds.  The code stores
`SLOT_2v2 = 33` while `_bracketSettings` has `MAX_SLOTS = 3` entries, so
every 2v2 settings lookup (and the 2v2 `LoadConfig` write) indexes the
array out of bounds: the lookups fail instead of returning the
configured values, even though the configured 2v2 triplet itself would
produce exactly 150, 600 and 800. -/
theorem bracket2v2_settings_lookup_out_of_bounds :
    ¬ SLOT_2v2 < MAX_SLOTS ∧
    (∀ (cfg : ArenaConfig) (t : Nat),
      ArenaMMRMgr.GetRelaxedMMRRange cfg t SLOT_2v2 = none) ∧
    ArenaMMRMgr.GetInitialRange LoadConfigDefaults SLOT_2v2 = none ∧
    ArenaMMRMgr.GetMaxRange LoadConfigDefaults SLOT_2v2 = none ∧
    ArenaMMRMgr.GetRelaxationRate LoadConfigDefaults SLOT_2v2 = none ∧
    ArenaMMRMgr.relaxedTolerance ⟨150, 800, 15⟩ 0 = 150 ∧
    ArenaMMRMgr.relaxedTolerance ⟨150, 800, 15⟩ 30 = 600 ∧
    ArenaMMRMgr.relaxedTolerance ⟨150, 800, 15⟩ 100 = 800 := by
  refine ⟨by decide, fun cfg t => ?_, ?_, ?_, ?_, ?_, ?_, ?_⟩
  · simp [ArenaMMRMgr.GetRelaxedMMRRange, SLOT_2v2, MAX_SLOTS]
  · simp [ArenaMMRMgr.GetInitialRange, SLOT_2v2, MAX_SLOTS]
  · simp [ArenaMMRMgr.GetMaxRange, SLOT_2v2, MAX_SLOTS]
  · simp [ArenaMMRMgr.GetRelaxationRate, SLOT_2v2, MAX_SLOTS]
  · norm_num [ArenaMMRMgr.relaxedTolerance]
  · norm_num [ArenaMMRMgr.relaxedTolerance]
  · norm_num [ArenaMMRMgr.relaxedTolerance]

/-- C2.  The claim says that after `RemoveAllRatings(subject)` no rating
remains for the subject in any bracket.  `RemoveAllRatings` erases the
keys with bracket values `0 .. MAX_SLOTS - 1 = 0, 1, 2`, but 2v2 ratings
are stored under bracket value `SLOT_2v2 = 33`, so a 2v2 rating survives
the removal (the 3v3 slot, value 1, is erased as intended). -/
theorem removeAllRatings_misses_the_2v2_slot :
    ArenaRatingStorage.HasRating
      (ArenaRatingStorage.RemoveAllRatings
        (ArenaRatingStorage.SetRating emptyArenaStore 7 SLOT_2v2
          exampleArenaData) 7) 7 SLOT_2v2 = true ∧
    ArenaRatingStorage.HasRating
      (ArenaRatingStorage.RemoveAllRatings
        (ArenaRatingStorage.SetRating emptyArenaStore 7 SLOT_3v3
          exampleArenaData) 7) 7 SLOT_3v3 = false := by
  decide

/-- C6 (counterexample).  The claim says every aggregation path returns
the configured default initial rating on empty input; the battleground
team/pool average returns the literal constant 1500 even when the
configured initial rating is 2000. -/
theorem bg_pool_average_empty_ignores_configured_default :
    Glicko2BGScript.CalculatePoolAverageMMR bgConfigAt2000 emptyBGStore [] = 1500 ∧
    Glicko2BGScript.CalculateAverageMMR bgConfigAt2000 emptyBGStore [] = 1500 ∧
    bgConfigAt2000.initialRating = 2000 ∧
    (1500 : ℚ) ≠ 2000 := by
  refine ⟨rfl, rfl, rfl, by norm_num⟩

/-- C6 (amended).  Averaging over an empty subject list never yields
zero or an error: the arena average and the battleground group and
arena-pool averages return the configured initial rating, while the
battleground team/pool average returns the fixed constant 1500 — which
coincides with the configured default only when the
`Glicko2.InitialRating` option is left at its default. -/
theorem average_over_empty_list_defaults :
    (∀ (cfg : ArenaConfig) (store : ArenaStore) (bracket : Nat),
      ArenaMMRMgr.CalculateAverageRating cfg store [] bracket =
        cfg.initialRating) ∧
    (∀ (cfg : BGConfig) (store : BGStore),
      Glicko2BGScript.CalculateAverageMMR cfg store [] = 1500) ∧
    (∀ (cfg : BGConfig) (store : BGStore),
      Glicko2BGScript.CalculatePoolAverageMMR cfg store [] = 1500) ∧
    (∀ (cfg : BGConfig) (store : BGStore),
      Glicko2BGScript.CalculateGroupAverageMMR cfg store [] =
        cfg.initialRating) ∧
    (∀ (cfg : ArenaConfig) (store : ArenaStore) (bracket : Nat),
      Glicko2BGScript.CalculateGroupArenaRating cfg store [] bracket =
        cfg.initialRating) ∧
    (∀ (cfg : ArenaConfig) (store : ArenaStore) (bracket : Nat),
      Glicko2BGScript.CalculatePoolArenaRating cfg store [] bracket =
        cfg.initialRating) := by
  refine ⟨fun cfg store bracket => rfl, fun cfg store => rfl,
    fun cfg store => rfl, fun cfg store => rfl,
    fun cfg store bracket => rfl, fun cfg store bracket => rfl⟩

/-- C7.  For a fixed settings triplet with non-negative relaxation rate,
the admission tolerance `min(initialRange + relaxationRate * t,
maxRange)` is monotone non-decreasing in the queue time and is bounded
by `maxRange` at every queue time. -/
theorem relaxedTolerance_monotone_and_capped (s : BracketSettings) :
    (∀ t1 t2 : Nat, 0 ≤ s.relaxationRate → t1 ≤ t2 →
      ArenaMMRMgr.relaxedTolerance s t1 ≤ ArenaMMRMgr.relaxedTolerance s t2) ∧
    (∀ t : Nat, ArenaMMRMgr.relaxedTolerance s t ≤ s.maxRange) := by
  constructor
  · intro t1 t2 hrate h12
    have hc : (t1 : ℚ) ≤ (t2 : ℚ) := by exact_mod_cast h12
    have hmul : s.relaxationRate * (t1 : ℚ) ≤ s.relaxationRate * (t2 : ℚ) :=
      mul_le_mul_of_nonneg_left hc hrate
    exact min_le_min (by linarith) le_rfl
  · intro t
    exact min_le_right _ _

/-- Witness for C7: the default 2v2 triplet at 30 and 100 seconds. -/
theorem relaxedTolerance_monotone_witness :
    (0 : ℚ) ≤ (BracketSettings.mk 150 800 15).relaxationRate ∧ 30 ≤ 100 ∧
    ArenaMMRMgr.relaxedTolerance ⟨150, 800, 15⟩ 30 ≤
      ArenaMMRMgr.relaxedTolerance ⟨150, 800, 15⟩ 100 :=
  ⟨by norm_num, by norm_num,
    (relaxedTolerance_monotone_and_capped ⟨150, 800, 15⟩).1 30 100
      (by norm_num) (by norm_num)⟩

/-- C4 (counterexample).  The claim says a `get` on an absent key
populates the in-memory cache, so that `has(key)` returns true
afterwards.  `GetRating` reads under a shared lock and performs no
insertion: after the call the cache is unchanged and `HasRating` is
still false. -/
theorem getRating_absent_does_not_populate_cache :
    (ArenaRatingStorage.GetRatingS LoadConfigDefaults emptyArenaStore 7
      SLOT_3v3).1.loaded = false ∧
    ArenaRatingStorage.HasRating
      (ArenaRatingStorage.GetRatingS LoadConfigDefaults emptyArenaStore 7
        SLOT_3v3).2 7 SLOT_3v3 = false := by
  decide

/-- C4 (amended).  A `get` on an absent key returns the configured
default record with `loaded = false` and performs no durable-storage
write, but it does not insert the default into the in-memory cache: the
cache after the call is exactly the cache before it, and `has(key)`
remains false.  This holds for the arena storage and for the
battleground storage alike. -/
theorem getRating_absent_returns_default_without_insert
    (cfg : ArenaConfig) (store : ArenaStore) (guid bracket : Nat)
    (h : store (guid, bracket) = none)
    (bcfg : BGConfig) (bstore : BGStore) (g : Nat)
    (hb : bstore g = none) :
    ArenaRatingStorage.GetRatingS cfg store guid bracket =
      (⟨cfg.initialRating, cfg.initialRD, cfg.initialVolatility, 0, 0, 0,
        bracket, false⟩, store) ∧
    ArenaRatingStorage.HasRating
      (ArenaRatingStorage.GetRatingS cfg store guid bracket).2 guid bracket
      = false ∧
    Glicko2PlayerStorage.GetRatingS bcfg bstore g =
      (⟨bcfg.initialRating, bcfg.initialRD, bcfg.initialVolatility, 0, 0, 0,
        false⟩, bstore) ∧
    Glicko2PlayerStorage.HasRating
      (Glicko2PlayerStorage.GetRatingS bcfg bstore g).2 g = false := by
  refine ⟨?_, ?_, ?_, ?_⟩
  · simp [ArenaRatingStorage.GetRatingS, ArenaRatingStorage.GetRating, h]
  · simp [ArenaRatingStorage.GetRatingS, ArenaRatingStorage.HasRating, h]
  · simp [Glicko2PlayerStorage.GetRatingS, Glicko2PlayerStorage.GetRating, hb]
  · simp [Glicko2PlayerStorage.GetRatingS, Glicko2PlayerStorage.HasRating, hb]

/-- Witness for the amended C4, at empty caches. -/
theorem getRating_absent_witness :
    emptyArenaStore (7, SLOT_3v3) = none ∧ emptyBGStore 7 = none ∧
    ArenaRatingStorage.HasRating
      (ArenaRatingStorage.GetRatingS LoadConfigDefaults emptyArenaStore 7
        SLOT_3v3).2 7 SLOT_3v3 = false :=
  ⟨rfl, rfl,
    (getRating_absent_returns_default_without_insert LoadConfigDefaults
      emptyArenaStore 7 SLOT_3v3 rfl bgConfigAt2000 emptyBGStore 7
      rfl).2.1⟩

/-- A pool that survives the stale sweep was already tracked with the
same contents. -/
theorem cleanupStalePools_subset (pools : PoolState) (now : Int)
    (k : Nat × Nat) (p : PoolTracker)
    (h : Glicko2BGScript.CleanupStalePools pools now k = some p) :
    pools k = some p := by
  unfold Glicko2BGScript.CleanupStalePools at h
  cases hk : pools k with
  | none => rw [hk] at h; exact absurd h (by simp)
  | some q =>
      rw [hk] at h
      by_cases hs : q.IsStale now
      · simp [hs] at h
      · simp [hs] at h; rw [h]

/-- C5.  For a non-empty candidate group the admission check follows the
claimed algorithm: a zero external pool player count clears the tracked
pool for the key, admits unconditionally, and seeds the pool with
exactly the candidate's members at the current time; otherwise the
candidate is admitted if and only if the absolute difference of the
group average and the pool average is within the time-relaxed tolerance,
and on admission the candidate's members are merged into the tracked
member set and the pool's last-update timestamp is refreshed. -/
theorem canAddGroup_follows_admission_algorithm
    (calcGroupAvg calcPoolAvg : List Nat → ℚ) (settings : BracketSettings)
    (pools : PoolState) (key : Nat × Nat) (groupPlayers : List Nat)
    (poolPlayerCount queueTimeSec : Nat) (now : Int)
    (hne : groupPlayers ≠ []) :
    (poolPlayerCount = 0 →
      Glicko2BGScript.CanAddGroupToMatchingPool calcGroupAvg calcPoolAvg
          settings pools key groupPlayers poolPlayerCount queueTimeSec now =
        (true, fun k =>
          if k = key then some (PoolTracker.cleared.AddGroup groupPlayers now)
          else Glicko2BGScript.CleanupStalePools pools now k)) ∧
    (poolPlayerCount ≠ 0 →
      ((Glicko2BGScript.CanAddGroupToMatchingPool calcGroupAvg calcPoolAvg
          settings pools key groupPlayers poolPlayerCount queueTimeSec now).1
          = true ↔
        |calcGroupAvg groupPlayers -
            calcPoolAvg ((Glicko2BGScript.CleanupStalePools pools now
              key).getD PoolTracker.cleared).players| ≤
          ArenaMMRMgr.relaxedTolerance settings queueTimeSec) ∧
      ((Glicko2BGScript.CanAddGroupToMatchingPool calcGroupAvg calcPoolAvg
          settings pools key groupPlayers poolPlayerCount queueTimeSec now).1
          = true →
        (Glicko2BGScript.CanAddGroupToMatchingPool calcGroupAvg calcPoolAvg
          settings pools key groupPlayers poolPlayerCount queueTimeSec
          now).2 key =
          some (((Glicko2BGScript.CleanupStalePools pools now key).getD
            PoolTracker.cleared).AddGroup groupPlayers now))) := by
  have hemp : groupPlayers.isEmpty = false := by
    cases groupPlayers with
    | nil => exact absurd rfl hne
    | cons a l => rfl
  refine ⟨fun h0 => ?_, fun h0 => ⟨?_, fun hall => ?_⟩⟩
  · unfold Glicko2BGScript.CanAddGroupToMatchingPool
    simp [hemp, h0]
  · unfold Glicko2BGScript.CanAddGroupToMatchingPool
    simp [hemp, h0]
  · have hcond : |calcGroupAvg groupPlayers -
        calcPoolAvg ((Glicko2BGScript.CleanupStalePools pools now
          key).getD PoolTracker.cleared).players| ≤
        ArenaMMRMgr.relaxedTolerance settings queueTimeSec := by
      by_contra hno
      unfold Glicko2BGScript.CanAddGroupToMatchingPool at hall
      simp [hemp, h0, hno] at hall
    unfold Glicko2BGScript.CanAddGroupToMatchingPool
    simp [hemp, h0, hcond]

/-- C10.  When the admission check rejects a candidate (non-zero
external pool count and average-rating difference above the tolerance),
no group member is merged into any tracked pool, the compared pool is
left exactly as the stale sweep left it (same member set, same
last-update timestamp), and the rating stores are untouched — the only
storage operation the check performs is `GetRating`, which returns the
cache unchanged. -/
theorem canAddGroup_rejection_has_no_side_effects
    (calcGroupAvg calcPoolAvg : List Nat → ℚ) (settings : BracketSettings)
    (pools : PoolState) (key : Nat × Nat) (groupPlayers : List Nat)
    (poolPlayerCount queueTimeSec : Nat) (now : Int)
    (hne : groupPlayers ≠ []) (hc : poolPlayerCount ≠ 0)
    (hrej : ¬ |calcGroupAvg groupPlayers -
        calcPoolAvg ((Glicko2BGScript.CleanupStalePools pools now
          key).getD PoolTracker.cleared).players| ≤
      ArenaMMRMgr.relaxedTolerance settings queueTimeSec) :
    (Glicko2BGScript.CanAddGroupToMatchingPool calcGroupAvg calcPoolAvg
        settings pools key groupPlayers poolPlayerCount queueTimeSec now).1
      = false ∧
    (Glicko2BGScript.CanAddGroupToMatchingPool calcGroupAvg calcPoolAvg
        settings pools key groupPlayers poolPlayerCount queueTimeSec
        now).2 key =
      some ((Glicko2BGScript.CleanupStalePools pools now key).getD
        PoolTracker.cleared) ∧
    (∀ (k : Nat × Nat) (p : PoolTracker) (g : Nat),
      (Glicko2BGScript.CanAddGroupToMatchingPool calcGroupAvg calcPoolAvg
        settings pools key groupPlayers poolPlayerCount queueTimeSec
        now).2 k = some p →
      g ∈ p.players →
      ∃ q, pools k = some q ∧ g ∈ q.players) ∧
    (∀ (cfg : ArenaConfig) (store : ArenaStore) (gd bk : Nat),
      (ArenaRatingStorage.GetRatingS cfg store gd bk).2 = store) ∧
    (∀ (cfg : BGConfig) (store : BGStore) (gd : Nat),
      (Glicko2PlayerStorage.GetRatingS cfg store gd).2 = store) := by
  have hemp : groupPlayers.isEmpty = false := by
    cases groupPlayers with
    | nil => exact absurd rfl hne
    | cons a l => rfl
  have hstate : (Glicko2BGScript.CanAddGroupToMatchingPool calcGroupAvg
      calcPoolAvg settings pools key groupPlayers poolPlayerCount
      queueTimeSec now).2 = fun k =>
        if k = key then
          some ((Glicko2BGScript.CleanupStalePools pools now key).getD
            PoolTracker.cleared)
        else Glicko2BGScript.CleanupStalePools pools now k := by
    unfold Glicko2BGScript.CanAddGroupToMatchingPool
    simp [hemp, hc, hrej]
  refine ⟨?_, ?_, ?_, fun cfg store gd bk => rfl, fun cfg store gd => rfl⟩
  · unfold Glicko2BGScript.CanAddGroupToMatchingPool
    simp [hemp, hc, hrej]
  · rw [hstate]; simp
  · intro k p g hk hg
    rw [hstate] at hk
    by_cases hkey : k = key
    · subst hkey
      simp at hk
      cases hcl : Glicko2BGScript.CleanupStalePools pools now k with
      | none =>
          rw [hcl] at hk
          simp [PoolTracker.cleared] at hk
          rw [← hk] at hg
          simp at hg
      | some q =>
          rw [hcl] at hk
          simp at hk
          exact ⟨q, cleanupStalePools_subset pools now k q hcl,
            by rw [hk]; exact hg⟩
    · simp [hkey] at hk
      exact ⟨p, cleanupStalePools_subset pools now k p hk, hg⟩

/-- Witness for C5: a first group joining an empty pool is admitted and
seeds the pool. -/
theorem canAddGroup_admission_witness :
    ([1] : List Nat) ≠ [] ∧
    Glicko2BGScript.CanAddGroupToMatchingPool (fun _ => 1500)
        (fun _ => 1500) ⟨150, 800, 15⟩ emptyPoolState (0, 0) [1] 0 0 0 =
      (true, fun k =>
        if k = (0, 0) then some (PoolTracker.cleared.AddGroup [1] 0)
        else Glicko2BGScript.CleanupStalePools emptyPoolState 0 k) :=
  ⟨by decide,
    (canAddGroup_follows_admission_algorithm (fun _ => 1500) (fun _ => 1500)
      ⟨150, 800, 15⟩ emptyPoolState (0, 0) [1] 0 0 0 (by decide)).1 rfl⟩

/-- Witness for C10: a group 1000 rating points away from the pool, with
tolerance 150, is rejected. -/
theorem canAddGroup_rejection_witness :
    ([1] : List Nat) ≠ [] ∧ (1 : Nat) ≠ 0 ∧
    (Glicko2BGScript.CanAddGroupToMatchingPool (fun _ => 2000)
      (fun _ => 1000) ⟨150, 800, 15⟩ emptyPoolState (0, 0) [1] 1 0 0).1 =
      false :=
  ⟨by decide, by decide,
    (canAddGroup_rejection_has_no_side_effects (fun _ => 2000)
      (fun _ => 1000) ⟨150, 800, 15⟩ emptyPoolState (0, 0) [1] 1 0 0
      (by decide) (by decide)
      (by norm_num [ArenaMMRMgr.relaxedTolerance])).1⟩

/-! ## Settlement staging (claim C3) -/

/-- The default configuration with the arena system enabled. -/
def arenaConfigEnabled : ArenaConfig :=
  { LoadConfigDefaults with enabled := true }

/-- `GetRating` depends only on the store entry at its key. -/
theorem getRating_congr (cfg : ArenaConfig) (s t : ArenaStore)
    (g bracket : Nat) (h : s (g, bracket) = t (g, bracket)) :
    ArenaRatingStorage.GetRating cfg s g bracket =
      ArenaRatingStorage.GetRating cfg t g bracket := by
  unfold ArenaRatingStorage.GetRating
  rw [h]

/-- `CalculateAverageRating` depends only on the store entries of the
listed subjects. -/
theorem calculateAverageRating_congr (cfg : ArenaConfig)
    (s t : ArenaStore) (guids : List Nat) (bracket : Nat)
    (h : ∀ g ∈ guids, s (g, bracket) = t (g, bracket)) :
    ArenaMMRMgr.CalculateAverageRating cfg s guids bracket =
      ArenaMMRMgr.CalculateAverageRating cfg t guids bracket := by
  unfold ArenaMMRMgr.CalculateAverageRating
  rw [List.map_congr_left
    (fun g hg => by rw [getRating_congr cfg s t g bracket (h g hg)])]

/-- `AverageOpponentRD` depends only on the store entries of the listed
subjects. -/
theorem averageOpponentRD_congr (cfg : ArenaConfig) (s t : ArenaStore)
    (guids : List Nat) (bracket : Nat)
    (h : ∀ g ∈ guids, s (g, bracket) = t (g, bracket)) :
    ArenaMMRMgr.AverageOpponentRD cfg s guids bracket =
      ArenaMMRMgr.AverageOpponentRD cfg t guids bracket := by
  unfold ArenaMMRMgr.AverageOpponentRD
  rw [List.map_congr_left
    (fun g hg => by rw [getRating_congr cfg s t g bracket (h g hg)])]

/-- `ApplyMatchResult` leaves every key other than the updated player's
key unchanged. -/
theorem applyMatchResult_other_key (upd : Glicko2Engine)
    (cfg : ArenaConfig) (s : ArenaStore) (guid bracket : Nat) (won : Bool)
    (avg avgRD : ℚ) (k : Nat × Nat) (hk : k ≠ (guid, bracket)) :
    ArenaMMRMgr.ApplyMatchResult upd cfg s guid bracket won avg avgRD k =
      s k := by
  simp [ArenaMMRMgr.ApplyMatchResult, ArenaRatingStorage.SetRating, hk]

/-- One side's update loop, with every per-player aggregate recomputed
from the current store (as `UpdatePlayerRating` does), equals the same
loop run against the aggregate taken once from the loop's base store,
provided none of the updated players is among the aggregated opponents;
and the opponents' entries are untouched by the loop. -/
theorem foldl_updatePlayerRating_fixed_aggregate (upd : Glicko2Engine)
    (cfg : ArenaConfig) (bracket : Nat) (won : Bool)
    (opponents : List Nat) (base : ArenaStore) (avg avgRD : ℚ)
    (henabled : cfg.enabled = true) (hopp : opponents.isEmpty = false)
    (havg : avg = ArenaMMRMgr.CalculateAverageRating cfg base opponents bracket)
    (havgRD : avgRD = ArenaMMRMgr.AverageOpponentRD cfg base opponents bracket) :
    ∀ (ps : List Nat) (s : ArenaStore),
      (∀ o ∈ opponents, s (o, bracket) = base (o, bracket)) →
      (∀ p ∈ ps, p ∉ opponents) →
      ps.foldl (fun s w =>
          ArenaMMRMgr.UpdatePlayerRating upd cfg s w bracket won opponents) s =
        ps.foldl (fun s w =>
          ArenaMMRMgr.ApplyMatchResult upd cfg s w bracket won avg avgRD) s ∧
      (∀ o ∈ opponents,
        (ps.foldl (fun s w =>
          ArenaMMRMgr.ApplyMatchResult upd cfg s w bracket won avg avgRD) s)
          (o, bracket) = base (o, bracket)) := by
  intro ps
  induction ps with
  | nil =>
      intro s hs _
      exact ⟨rfl, hs⟩
  | cons p ps ih =>
      intro s hs hps
      have hpnotin : p ∉ opponents := hps p (List.mem_cons_self p ps)
      have hstep : ArenaMMRMgr.UpdatePlayerRating upd cfg s p bracket won
          opponents =
          ArenaMMRMgr.ApplyMatchResult upd cfg s p bracket won avg avgRD := by
        unfold ArenaMMRMgr.UpdatePlayerRating
        rw [henabled, hopp]
        simp only [Bool.not_true, Bool.false_or, Bool.or_self,
          Bool.false_eq_true, if_false]
        rw [calculateAverageRating_congr cfg s base opponents bracket hs,
          averageOpponentRD_congr cfg s base opponents bracket hs,
          ← havg, ← havgRD]
      have hs1 : ∀ o ∈ opponents,
          (ArenaMMRMgr.ApplyMatchResult upd cfg s p bracket won avg avgRD)
            (o, bracket) = base (o, bracket) := by
        intro o ho
        rw [applyMatchResult_other_key upd cfg s p bracket won avg avgRD
          (o, bracket) (by
            intro hcontra
            exact hpnotin (by
              have : o = p := congrArg Prod.fst hcontra
              rw [← this]; exact ho))]
        exact hs o ho
      have hrec := ih (ArenaMMRMgr.ApplyMatchResult upd cfg s p bracket won
        avg avgRD) hs1 (fun q hq => hps q (List.mem_cons_of_mem p hq))
      refine ⟨?_, hrec.2⟩
      simp only [List.foldl_cons]
      rw [hstep]
      exact hrec.1

/-- C3 (amended).  For disjoint winner and loser sides, the settlement
equals the staged description: every winner is updated against the
single synthetic opponent built from the losers' average rating and
average RD over the pre-settlement store with score 1.0, incrementing
`matchesPlayed` and `wins`; every loser is then updated against the
synthetic opponent built from the winners' average rating and average RD
over the store as it stands after all winners' updates have been written
back, with score 0.0, incrementing `matchesPlayed` and `losses`.  (The
original claim's stronger reading — both aggregates taken before any
update — is refuted by the counterexample.) -/
theorem updateArenaMatch_staged_aggregates (upd : Glicko2Engine)
    (cfg : ArenaConfig) (store : ArenaStore) (winners losers : List Nat)
    (bracket : Nat) (hdisj : ∀ w ∈ winners, w ∉ losers) :
    ArenaMMRMgr.UpdateArenaMatch upd cfg store winners losers bracket =
      ArenaMMRMgr.UpdateArenaMatchStaged upd cfg store winners losers
        bracket := by
  by_cases hg : (!cfg.enabled || winners.isEmpty || losers.isEmpty) = true
  · unfold ArenaMMRMgr.UpdateArenaMatch ArenaMMRMgr.UpdateArenaMatchStaged
    rw [if_pos hg, if_pos hg]
  · have hg1 : cfg.enabled = true := by
      by_contra hno
      simp [Bool.not_eq_true] at hno
      simp [hno] at hg
    have hg2 : winners.isEmpty = false := by
      by_contra hno
      simp [Bool.not_eq_false] at hno
      simp [hno] at hg
    have hg3 : losers.isEmpty = false := by
      by_contra hno
      simp [Bool.not_eq_false] at hno
      simp [hno] at hg
    unfold ArenaMMRMgr.UpdateArenaMatch ArenaMMRMgr.UpdateArenaMatchStaged
    rw [if_neg hg, if_neg hg]
    have hwinners := foldl_updatePlayerRating_fixed_aggregate upd cfg
      bracket true losers store
      (ArenaMMRMgr.CalculateAverageRating cfg store losers bracket)
      (ArenaMMRMgr.AverageOpponentRD cfg store losers bracket)
      hg1 hg3 rfl rfl winners store (fun o _ => rfl) hdisj
    rw [hwinners.1]
    have hdisj2 : ∀ l ∈ losers, l ∉ winners := by
      intro l hl hlw
      exact hdisj l hlw hl
    have hlosers := foldl_updatePlayerRating_fixed_aggregate upd cfg
      bracket false winners
      (winners.foldl (fun s w =>
        ArenaMMRMgr.ApplyMatchResult upd cfg s w bracket true
          (ArenaMMRMgr.CalculateAverageRating cfg store losers bracket)
          (ArenaMMRMgr.AverageOpponentRD cfg store losers bracket)) store)
      (ArenaMMRMgr.CalculateAverageRating cfg
        (winners.foldl (fun s w =>
          ArenaMMRMgr.ApplyMatchResult upd cfg s w bracket true
            (ArenaMMRMgr.CalculateAverageRating cfg store losers bracket)
            (ArenaMMRMgr.AverageOpponentRD cfg store losers bracket)) store)
        winners bracket)
      (ArenaMMRMgr.AverageOpponentRD cfg
        (winners.foldl (fun s w =>
          ArenaMMRMgr.ApplyMatchResult upd cfg s w bracket true
            (ArenaMMRMgr.CalculateAverageRating cfg store losers bracket)
            (ArenaMMRMgr.AverageOpponentRD cfg store losers bracket)) store)
        winners bracket)
      hg1 hg2 rfl rfl losers
      (winners.foldl (fun s w =>
        ArenaMMRMgr.ApplyMatchResult upd cfg s w bracket true
          (ArenaMMRMgr.CalculateAverageRating cfg store losers bracket)
          (ArenaMMRMgr.AverageOpponentRD cfg store losers bracket)) store)
      (fun o _ => rfl) hdisj2
    exact hlosers.1

/-- Witness for the amended C3, at a concrete one-versus-one settlement
with the spec-modelled stand-in engine. -/
theorem updateArenaMatch_staged_witness :
    (∀ w ∈ ([1] : List Nat), w ∉ ([2] : List Nat)) ∧
    ArenaMMRMgr.UpdateArenaMatch engineStandIn arenaConfigEnabled
        emptyArenaStore [1] [2] SLOT_3v3 =
      ArenaMMRMgr.UpdateArenaMatchStaged engineStandIn arenaConfigEnabled
        emptyArenaStore [1] [2] SLOT_3v3 :=
  ⟨by decide,
    updateArenaMatch_staged_aggregates engineStandIn arenaConfigEnabled
      emptyArenaStore [1] [2] SLOT_3v3 (by decide)⟩

/-- C3 (counterexample).  With the stand-in engine, the sole loser of a
1-versus-1 settlement ends at rating 4500 — its synthetic opponent's
rating was the winner's already-updated 3000 — whereas computing both
aggregates from the pre-settlement store, as the claim states, would end
the loser at 3000. -/
theorem settlement_aggregates_not_presnapshot :
    (ArenaRatingStorage.GetRating arenaConfigEnabled
      (ArenaMMRMgr.UpdateArenaMatch engineStandIn arenaConfigEnabled
        emptyArenaStore [1] [2] SLOT_3v3) 2 SLOT_3v3).rating = 4500 ∧
    (ArenaRatingStorage.GetRating arenaConfigEnabled
      (ArenaMMRMgr.UpdateArenaMatchClaimed engineStandIn arenaConfigEnabled
        emptyArenaStore [1] [2] SLOT_3v3) 2 SLOT_3v3).rating = 3000 ∧
    (4500 : ℚ) ≠ 3000 := by
  refine ⟨?_, ?_, by norm_num⟩
  · norm_num [ArenaMMRMgr.UpdateArenaMatch, ArenaMMRMgr.UpdatePlayerRating,
      ArenaMMRMgr.ApplyMatchResult, ArenaMMRMgr.CalculateAverageRating,
      ArenaMMRMgr.AverageOpponentRD, ArenaRatingStorage.GetRating,
      ArenaRatingStorage.SetRating, emptyArenaStore, arenaConfigEnabled,
      LoadConfigDefaults, engineStandIn, SLOT_3v3]
  · norm_num [ArenaMMRMgr.UpdateArenaMatchClaimed,
      ArenaMMRMgr.ApplyMatchResult, ArenaMMRMgr.CalculateAverageRating,
      ArenaMMRMgr.AverageOpponentRD, ArenaRatingStorage.GetRating,
      ArenaRatingStorage.SetRating, emptyArenaStore, arenaConfigEnabled,
      LoadConfigDefaults, engineStandIn, SLOT_3v3]

/-! ## The counters invariant (claim C8) -/

/-- Every record held by the arena cache satisfies
`wins + losses = matchesPlayed`. -/
def ArenaStoreCounters (store : ArenaStore) : Prop :=
  ∀ (k : Nat × Nat) (d : ArenaRatingData),
    store k = some d → d.wins + d.losses = d.matchesPlayed

/-- Every record held by the battleground cache satisfies
`wins + losses = matchesPlayed`. -/
def BGStoreCounters (store : BGStore) : Prop :=
  ∀ (k : Nat) (d : BattlegroundRatingData),
    store k = some d → d.wins + d.losses = d.matchesPlayed

/-- The empty arena cache satisfies the counters invariant. -/
theorem arenaStoreCounters_empty : ArenaStoreCounters emptyArenaStore :=
  fun _ d hk => by simp [emptyArenaStore] at hk

/-- The empty battleground cache satisfies the counters invariant. -/
theorem bgStoreCounters_empty : BGStoreCounters emptyBGStore :=
  fun _ d hk => by simp [emptyBGStore] at hk

/-- A record observed through the arena `GetRating` satisfies the
counters invariant whenever the cache does (the materialised default has
all counters zero). -/
theorem arenaGetRating_counters (cfg : ArenaConfig) (store : ArenaStore)
    (h : ArenaStoreCounters store) (g b : Nat) :
    (ArenaRatingStorage.GetRating cfg store g b).wins +
      (ArenaRatingStorage.GetRating cfg store g b).losses =
      (ArenaRatingStorage.GetRating cfg store g b).matchesPlayed := by
  unfold ArenaRatingStorage.GetRating
  cases hk : store (g, b) with
  | none => rfl
  | some d => exact h (g, b) d hk

/-- A record observed through the battleground `GetRating` satisfies the
counters invariant whenever the cache does. -/
theorem bgGetRating_counters (cfg : BGConfig) (store : BGStore)
    (h : BGStoreCounters store) (g : Nat) :
    (Glicko2PlayerStorage.GetRating cfg store g).wins +
      (Glicko2PlayerStorage.GetRating cfg store g).losses =
      (Glicko2PlayerStorage.GetRating cfg store g).matchesPlayed := by
  unfold Glicko2PlayerStorage.GetRating
  cases hk : store g with
  | none => rfl
  | some d => exact h g d hk

/-- `SetRating` preserves the arena counters invariant when the written
record satisfies it. -/
theorem arenaSetRating_counters (store : ArenaStore) (g b : Nat)
    (d : ArenaRatingData) (h : ArenaStoreCounters store)
    (hd : d.wins + d.losses = d.matchesPlayed) :
    ArenaStoreCounters (ArenaRatingStorage.SetRating store g b d) := by
  intro k e hk
  unfold ArenaRatingStorage.SetRating at hk
  by_cases hkey : k = (g, b)
  · rw [if_pos hkey] at hk
    cases hk
    exact hd
  · rw [if_neg hkey] at hk
    exact h k e hk

/-- `ApplyMatchResult` preserves the arena counters invariant: it adds
one to `matchesPlayed` and one to exactly one of `wins` and `losses`. -/
theorem applyMatchResult_counters (upd : Glicko2Engine)
    (cfg : ArenaConfig) (store : ArenaStore) (g b : Nat) (won : Bool)
    (avg avgRD : ℚ) (h : ArenaStoreCounters store) :
    ArenaStoreCounters
      (ArenaMMRMgr.ApplyMatchResult upd cfg store g b won avg avgRD) := by
  unfold ArenaMMRMgr.ApplyMatchResult
  apply arenaSetRating_counters _ _ _ _ h
  have hget := arenaGetRating_counters cfg store h g b
  cases won <;> simp <;> omega

/-- `UpdatePlayerRating` preserves the arena counters invariant. -/
theorem updatePlayerRating_counters (upd : Glicko2Engine)
    (cfg : ArenaConfig) (store : ArenaStore) (g b : Nat) (won : Bool)
    (opps : List Nat) (h : ArenaStoreCounters store) :
    ArenaStoreCounters
      (ArenaMMRMgr.UpdatePlayerRating upd cfg store g b won opps) := by
  unfold ArenaMMRMgr.UpdatePlayerRating
  by_cases hg : (!cfg.enabled || opps.isEmpty) = true
  · rw [if_pos hg]; exact h
  · rw [if_neg hg]
    exact applyMatchResult_counters upd cfg store g b won _ _ h

/-- A left fold preserves any property its step function preserves. -/
theorem foldl_preserves {α σ : Type} (P : σ → Prop) (f : σ → α → σ)
    (hf : ∀ s a, P s → P (f s a)) :
    ∀ (l : List α) (s : σ), P s → P (l.foldl f s) := by
  intro l
  induction l with
  | nil => intro s hs; exact hs
  | cons a l ih => intro s hs; exact ih (f s a) (hf s a hs)

/-- C8.  Assuming every cached record satisfies
`wins + losses = matchesPlayed` (records loaded from durable storage are
cached through `SetRating`, so the assumption covers them), the
invariant holds at every observation point and is preserved by every
mutation of the rating state: any record read through `GetRating`
(including a materialised default) satisfies it, and it is preserved by
player initialisation, by a single player's settlement update, by a full
arena match settlement, and by a battleground team settlement update. -/
theorem counters_invariant (upd : Glicko2Engine) (cfg : ArenaConfig)
    (store : ArenaStore) (bcfg : BGConfig) (bstore : BGStore)
    (h : ArenaStoreCounters store) (hb : BGStoreCounters bstore) :
    (∀ g b, (ArenaRatingStorage.GetRating cfg store g b).wins +
        (ArenaRatingStorage.GetRating cfg store g b).losses =
        (ArenaRatingStorage.GetRating cfg store g b).matchesPlayed) ∧
    (∀ g b, ArenaStoreCounters
      (ArenaMMRMgr.InitializePlayerRating cfg store g b)) ∧
    (∀ g b won opps, ArenaStoreCounters
      (ArenaMMRMgr.UpdatePlayerRating upd cfg store g b won opps)) ∧
    (∀ winners losers b, ArenaStoreCounters
      (ArenaMMRMgr.UpdateArenaMatch upd cfg store winners losers b)) ∧
    (∀ players oppAvg oppAvgRD won, BGStoreCounters
      (Glicko2BGScript.UpdateTeamRatings upd bcfg bstore players oppAvg
        oppAvgRD won)) := by
  refine ⟨fun g b => arenaGetRating_counters cfg store h g b,
    fun g b => ?_, fun g b won opps =>
      updatePlayerRating_counters upd cfg store g b won opps h,
    fun winners losers b => ?_, fun players oppAvg oppAvgRD won => ?_⟩
  · unfold ArenaMMRMgr.InitializePlayerRating
    by_cases h1 : (!cfg.enabled) = true
    · rw [if_pos h1]; exact h
    · rw [if_neg h1]
      by_cases h2 : ArenaRatingStorage.HasRating store g b = true
      · rw [if_pos h2]; exact h
      · rw [if_neg h2]
        exact arenaSetRating_counters store g b _ h rfl
  · unfold ArenaMMRMgr.UpdateArenaMatch
    by_cases hg : (!cfg.enabled || winners.isEmpty || losers.isEmpty) = true
    · rw [if_pos hg]; exact h
    · rw [if_neg hg]
      refine foldl_preserves ArenaStoreCounters _
        (fun s l hs =>
          updatePlayerRating_counters upd cfg s l b false winners hs)
        losers _ ?_
      exact foldl_preserves ArenaStoreCounters _
        (fun s w hs =>
          updatePlayerRating_counters upd cfg s w b true losers hs)
        winners store h
  · unfold Glicko2BGScript.UpdateTeamRatings
    refine foldl_preserves BGStoreCounters _ (fun s g hs => ?_) players
      bstore hb
    intro k e hk
    unfold Glicko2PlayerStorage.SetRating at hk
    dsimp only at hk
    by_cases hkey : k = g
    · rw [if_pos hkey] at hk
      cases hk
      have hget := bgGetRating_counters bcfg s hs g
      cases won <;> simp <;> omega
    · rw [if_neg hkey] at hk
      exact hs k e hk

/-- Witness for C8: the invariant holds for the empty caches and is
preserved by a concrete one-versus-one settlement with the stand-in
engine. -/
theorem counters_invariant_witness :
    ArenaStoreCounters emptyArenaStore ∧ BGStoreCounters emptyBGStore ∧
    ArenaStoreCounters (ArenaMMRMgr.UpdateArenaMatch engineStandIn
      arenaConfigEnabled emptyArenaStore [1] [2] SLOT_3v3) :=
  ⟨arenaStoreCounters_empty, bgStoreCounters_empty,
    (counters_invariant engineStandIn arenaConfigEnabled emptyArenaStore
      bgConfigAt2000 emptyBGStore arenaStoreCounters_empty
      bgStoreCounters_empty).2.2.2.1 [1] [2] SLOT_3v3⟩

/-! ## Inactivity path of the engine (claim C9) -/

/-- C9 (spec-modelled).  For a rating with strictly positive RD and
volatility, the empty-opponent update leaves the rating and the
volatility exactly unchanged and strictly increases the rating
deviation, which becomes `sqrt(RD^2 + volatility^2)`. -/
theorem updateRating_noOpponents_inactivity (r : Glicko2Rating ℝ)
    (hrd : 0 < r.ratingDeviation) (hvol : 0 < r.volatility) :
    (UpdateRatingNoOpponents r).rating = r.rating ∧
    (UpdateRatingNoOpponents r).volatility = r.volatility ∧
    r.ratingDeviation < (UpdateRatingNoOpponents r).ratingDeviation ∧
    (UpdateRatingNoOpponents r).ratingDeviation =
      Real.sqrt (r.ratingDeviation ^ 2 + r.volatility ^ 2) := by
  refine ⟨rfl, rfl, ?_, rfl⟩
  have h1 : r.ratingDeviation ^ 2 <
      r.ratingDeviation ^ 2 + r.volatility ^ 2 := by nlinarith
  exact (Real.lt_sqrt (le_of_lt hrd)).mpr h1

/-- Witness for C9: the unit-test fixture `(1500, 200, 0.06)`. -/
theorem updateRating_noOpponents_witness :
    (0 : ℝ) < 200 ∧ (0 : ℝ) < 0.06 ∧
    (200 : ℝ) <
      (UpdateRatingNoOpponents ⟨1500, 200, 0.06⟩).ratingDeviation :=
  ⟨by norm_num, by norm_num,
    (updateRating_noOpponents_inactivity ⟨1500, 200, 0.06⟩ (by norm_num)
      (by norm_num)).2.2.1⟩

end Glicko2MMR
